import Mathlib

/-!
# rtsprequest: the RTSP session driver of `rtsprequest.cpp`

A shallow embedding of `rtsprequest.cpp`.  The program is a straight-line
driver around libcurl, so the embedding is explicit state passing over a
`World`: the calls the program has made so far (its trace, oldest first),
the option values held by the curl easy handle, and the set of open
`FILE*` streams.  Whatever the outside world decides (result codes, whether
a file can be opened) is read from an `Env`.

Undefined behaviour of the C program (writing past the end of a buffer,
reading through a null `argv[0]`) is the result `none`.
-/

namespace RtspRequest

/-! ## Data model -/

/-- A C string, given by its content: the characters before the terminating NUL. -/
abbrev CStr := List Char

/-- The type `CURLcode` of `curl/curl.h`; only `CURLE_OK` is told apart from the rest. -/
abbrev CURLcode := Nat

/-- The success code `CURLE_OK` of `curl/curl.h`. -/
def CURLE_OK : CURLcode := 0

/-- The value `EXIT_SUCCESS` of `stdlib.h`. -/
def EXIT_SUCCESS : Int := 0

/-- The value `EXIT_FAILURE` of `stdlib.h`. -/
def EXIT_FAILURE : Int := 1

/-- The string `VERSION_STR` (line 37). -/
def VERSION_STR : CStr := "V1.0".toList

/-- A `FILE*`: one of the two standard streams used by the program, or the
stream returned by a successful `fopen` of the named file. -/
inductive Stream where
  | stdout
  | stderr
  | file (name : CStr)
  deriving DecidableEq, Repr

/-- The request kinds `CURL_RTSPREQ_*` used by the program. -/
inductive RtspReq where
  | OPTIONS
  | DESCRIBE
  | SETUP
  | PLAY
  | TEARDOWN
  deriving DecidableEq, Repr

/-- An option together with the value passed for it: the second and third
argument of a `curl_easy_setopt` call. -/
inductive CurlOpt where
  | CURLOPT_VERBOSE (v : Int)
  | CURLOPT_NOPROGRESS (v : Int)
  | CURLOPT_WRITEHEADER (fp : Stream)
  | CURLOPT_URL (s : CStr)
  | CURLOPT_RTSP_STREAM_URI (s : CStr)
  | CURLOPT_RTSP_REQUEST (r : RtspReq)
  | CURLOPT_WRITEDATA (fp : Stream)
  | CURLOPT_RTSP_TRANSPORT (s : CStr)
  | CURLOPT_RANGE (s : CStr)
  deriving DecidableEq, Repr

/-- The option values held by a curl easy handle; `none` is an option that
is not set (the library default).  String options are copied by the
library when they are set, so the handle owns its values. -/
structure Handle where
  verbose : Option Int := none
  noprogress : Option Int := none
  writeheader : Option Stream := none
  url : Option CStr := none
  rtsp_stream_uri : Option CStr := none
  rtsp_request : Option RtspReq := none
  writedata : Option Stream := none
  rtsp_transport : Option CStr := none
  range : Option CStr := none
  deriving DecidableEq, Repr

/-- The effect on the handle of an option-setting call that takes effect. -/
def CurlOpt.apply : CurlOpt → Handle → Handle
  | .CURLOPT_VERBOSE v, h => { h with verbose := some v }
  | .CURLOPT_NOPROGRESS v, h => { h with noprogress := some v }
  | .CURLOPT_WRITEHEADER fp, h => { h with writeheader := some fp }
  | .CURLOPT_URL s, h => { h with url := some s }
  | .CURLOPT_RTSP_STREAM_URI s, h => { h with rtsp_stream_uri := some s }
  | .CURLOPT_RTSP_REQUEST r, h => { h with rtsp_request := some r }
  | .CURLOPT_WRITEDATA fp, h => { h with writedata := some fp }
  | .CURLOPT_RTSP_TRANSPORT s, h => { h with rtsp_transport := some s }
  | .CURLOPT_RANGE s, h => { h with range := some s }

/-- An argument of a `printf`-style call. -/
inductive Arg where
  | str (s : CStr)
  | int (n : Int)
  deriving DecidableEq, Repr

/-- One call made by the program to the C library, to libcurl or to the
console.  A call that returns something the program looks at carries that
result; `curl_easy_perform` also carries the option values of the handle at
the moment of the call. -/
inductive Event where
  | printf (fmt : String) (args : List Arg)
  | fprintf (fp : Stream) (fmt : String) (args : List Arg)
  | fopen (name : CStr) (ok : Bool)
  | fclose (fp : Stream)
  | getch
  | curl_global_init (res : CURLcode)
  | curl_version_info
  | curl_easy_init (ok : Bool)
  | curl_easy_setopt (opt : CurlOpt) (res : CURLcode)
  | curl_easy_perform (h : Handle) (res : CURLcode)
  | curl_easy_cleanup
  | curl_global_cleanup
  deriving DecidableEq, Repr

/-- The state of the run. -/
structure World where
  /-- The calls made so far, oldest first. -/
  trace : List Event
  /-- The option values of the curl easy handle. -/
  handle : Handle
  /-- The streams that are open. -/
  open_streams : List Stream

/-- The option values in force at a `curl_easy_perform` call. -/
def Event.snapshot : Event → Option Handle
  | .curl_easy_perform h _ => some h
  | _ => none

/-- The option values in force at each `curl_easy_perform` call of a trace, in order. -/
def performed (tr : List Event) : List Handle :=
  tr.filterMap Event.snapshot

/-- The option and the result of a `curl_easy_setopt` call. -/
def Event.setopt_call : Event → Option (CurlOpt × CURLcode)
  | .curl_easy_setopt opt res => some (opt, res)
  | _ => none

/-- The `curl_easy_setopt` calls of a trace, in order. -/
def setopt_calls (tr : List Event) : List (CurlOpt × CURLcode) :=
  tr.filterMap Event.setopt_call

/-- The number of `curl_easy_setopt` calls made so far. -/
def World.setopts (w : World) : Nat :=
  (setopt_calls w.trace).length

/-- The number of `curl_easy_perform` calls made so far. -/
def World.performs (w : World) : Nat :=
  (performed w.trace).length

/-- The state when `main` is entered. -/
def World.init : World :=
  { trace := [], handle := {}, open_streams := [Stream.stdout, Stream.stderr] }

/-- What the outside world decides.  The result code of a libcurl call is
looked up by the number of earlier calls of the same function, so every
call of a run has a result of its own. -/
structure Env where
  /-- The result of `curl_global_init`. -/
  global_init : CURLcode
  /-- The version string reported by `curl_version_info`. -/
  version : CStr
  /-- Whether `curl_easy_init` returns a handle (rather than `NULL`). -/
  easy_init : Bool
  /-- The result of the `curl_easy_setopt` call that follows `n` earlier ones
  and sets the given option. -/
  setopt : Nat → CurlOpt → CURLcode
  /-- The result of the `curl_easy_perform` call that follows `n` earlier ones. -/
  perform : Nat → CURLcode
  /-- Whether the named file can be opened for writing. -/
  fopen : CStr → Bool

/-! ## The C library -/

/-- The function `strrchr` for a non-NUL character: the string starting at the last
occurrence of `c` in `s` (a pointer into `s`), or `none` for `NULL`. -/
def strrchr : CStr → Char → Option CStr
  | [], _ => none
  | x :: xs, c =>
    match strrchr xs c with
    | some r => some r
    | none => if x = c then some (x :: xs) else none

/-- The text produced by a format in which `%s` is the only conversion. -/
def format : List Char → List CStr → CStr
  | [], _ => []
  | '%' :: 's' :: fmt, a :: args => a ++ format fmt args
  | c :: fmt, args => c :: format fmt args

/-- The function `sprintf` into a buffer of `cap` characters: the new content of the
buffer, or `none` when the text and its terminating NUL do not fit. -/
def sprintf (cap : Nat) (fmt : String) (args : List CStr) : Option CStr :=
  if (format fmt.toList args).length + 1 ≤ cap then some (format fmt.toList args) else none

/-- Record one call. -/
def emit (e : Event) (w : World) : World :=
  { w with trace := w.trace ++ [e] }

/-- The function `printf`. -/
def printf (fmt : String) (args : List Arg) (w : World) : World :=
  emit (Event.printf fmt args) w

/-- The function `fprintf`. -/
def fprintf (fp : Stream) (fmt : String) (args : List Arg) (w : World) : World :=
  emit (Event.fprintf fp fmt args) w

/-- The call `fopen(name, "wt")`: the stream, or `none` for `NULL`. -/
def fopen (env : Env) (name : CStr) (w : World) : Option Stream × World :=
  if env.fopen name then
    (some (Stream.file name),
      { emit (Event.fopen name true) w with
        open_streams := w.open_streams ++ [Stream.file name] })
  else
    (none, emit (Event.fopen name false) w)

/-- The function `fclose`: the stream is open no more. -/
def fclose (fp : Stream) (w : World) : World :=
  { emit (Event.fclose fp) w with
    open_streams := w.open_streams.filter (fun s => decide (s ≠ fp)) }

/-- The function `_getch` of `conio.h`: wait for a key.  The key is taken to arrive:
the call is recorded and the run goes on. -/
def getch (w : World) : World :=
  emit Event.getch w

/-! ## libcurl -/

/-- The function `curl_global_init`. -/
def curl_global_init (env : Env) (w : World) : CURLcode × World :=
  (env.global_init, emit (Event.curl_global_init env.global_init) w)

/-- The function `curl_version_info`: the version string of the returned data. -/
def curl_version_info (env : Env) (w : World) : CStr × World :=
  (env.version, emit Event.curl_version_info w)

/-- The function `curl_easy_init`: whether a handle is returned; a new handle has no
option set. -/
def curl_easy_init (env : Env) (w : World) : Bool × World :=
  (env.easy_init, { emit (Event.curl_easy_init env.easy_init) w with handle := {} })

/-- What a failing option-setting call leaves on the handle.  The setter of a
string option (`CURLOPT_URL`, `CURLOPT_RTSP_STREAM_URI`,
`CURLOPT_RTSP_TRANSPORT`, `CURLOPT_RANGE`) frees the value the handle holds
before it can fail, so such an option is left unset; the other options keep
the value they had. -/
def CurlOpt.clear : CurlOpt → Handle → Handle
  | .CURLOPT_URL _, h => { h with url := none }
  | .CURLOPT_RTSP_STREAM_URI _, h => { h with rtsp_stream_uri := none }
  | .CURLOPT_RTSP_TRANSPORT _, h => { h with rtsp_transport := none }
  | .CURLOPT_RANGE _, h => { h with range := none }
  | _, h => h

/-- The effect on the handle of an option-setting call with a given result:
the option takes effect exactly when the result is `CURLE_OK`. -/
def CurlOpt.effect (opt : CurlOpt) (res : CURLcode) (h : Handle) : Handle :=
  if res = CURLE_OK then opt.apply h else opt.clear h

/-- The function `curl_easy_setopt`. -/
def curl_easy_setopt (env : Env) (opt : CurlOpt) (w : World) : CURLcode × World :=
  let res := env.setopt w.setopts opt
  (res, { emit (Event.curl_easy_setopt opt res) w with handle := opt.effect res w.handle })

/-- The function `curl_easy_perform`: the request is made with the option values the
handle holds. -/
def curl_easy_perform (env : Env) (w : World) : CURLcode × World :=
  let res := env.perform w.performs
  (res, emit (Event.curl_easy_perform w.handle res) w)

/-- The function `curl_easy_cleanup`. -/
def curl_easy_cleanup (w : World) : World :=
  emit Event.curl_easy_cleanup w

/-- The function `curl_global_cleanup`. -/
def curl_global_cleanup (w : World) : World :=
  emit Event.curl_global_cleanup w

/-! ## The program -/

/-- The macro `my_curl_easy_setopt(A,B,C)` (lines 40-42); `A`, `B` and `C` are
the texts of the three arguments, which the macro prints on failure. -/
def my_curl_easy_setopt (env : Env) (A B C : String) (opt : CurlOpt) (w : World) : World :=
  let (res, w) := curl_easy_setopt env opt w
  if res ≠ CURLE_OK then
    fprintf Stream.stderr "curl_easy_setopt(%s, %s, %s) failed: %d\n"
      [Arg.str A.toList, Arg.str B.toList, Arg.str C.toList, Arg.int res] w
  else w

/-- The macro `my_curl_easy_perform(A)` (lines 44-46). -/
def my_curl_easy_perform (env : Env) (A : String) (w : World) : World :=
  let (res, w) := curl_easy_perform env w
  if res ≠ CURLE_OK then
    fprintf Stream.stderr "curl_easy_perform(%s) failed: %d\n" [Arg.str A.toList, Arg.int res] w
  else w

/-- The function `rtsp_options` (lines 50-56). -/
def rtsp_options (env : Env) (uri : CStr) (w : World) : World :=
  let w := printf "\nRTSP: OPTIONS %s\n" [Arg.str uri] w
  let w := my_curl_easy_setopt env "curl" "CURLOPT_RTSP_STREAM_URI" "uri"
    (CurlOpt.CURLOPT_RTSP_STREAM_URI uri) w
  let w := my_curl_easy_setopt env "curl" "CURLOPT_RTSP_REQUEST" "CURL_RTSPREQ_OPTIONS"
    (CurlOpt.CURLOPT_RTSP_REQUEST RtspReq.OPTIONS) w
  my_curl_easy_perform env "curl" w

/-- Lines 63-78 of `rtsp_describe`: the name of the SDP file, and whether it
was allocated here (`sdp_filename_new`).  An allocation with `new` that
returns has succeeded, so the test of line 70 holds. -/
def sdp_filename (uri : CStr) : Option (CStr × Bool) :=
  match strrchr uri '/' with
  | some s =>
    let s := s.drop 1
    if s ≠ [] then
      match sprintf (s.length + 8) "%s.sdp" [s] with
      | some name => some (name, true)
      | none => none
    else some ("video.sdp".toList, false)
  | none => some ("video.sdp".toList, false)

/-- The function `rtsp_describe` (lines 60-94). -/
def rtsp_describe (env : Env) (uri : CStr) (w : World) : Option World :=
  let w := printf "\nRTSP: DESCRIBE %s\n" [Arg.str uri] w
  match sdp_filename uri with
  | none => none
  | some (sdp_filename, _) =>
    let (fp, w) := fopen env sdp_filename w
    let (sdp_fp, w) :=
      match fp with
      | none =>
        (Stream.stdout,
          fprintf Stream.stderr "Could not open '%s' for writing\n" [Arg.str sdp_filename] w)
      | some fp => (fp, printf "Writing SDP to '%s'\n" [Arg.str sdp_filename] w)
    let w := my_curl_easy_setopt env "curl" "CURLOPT_WRITEDATA" "sdp_fp"
      (CurlOpt.CURLOPT_WRITEDATA sdp_fp) w
    let w := my_curl_easy_setopt env "curl" "CURLOPT_RTSP_REQUEST" "CURL_RTSPREQ_DESCRIBE"
      (CurlOpt.CURLOPT_RTSP_REQUEST RtspReq.DESCRIBE) w
    let w := my_curl_easy_perform env "curl" w
    let w := my_curl_easy_setopt env "curl" "CURLOPT_WRITEDATA" "stdout"
      (CurlOpt.CURLOPT_WRITEDATA Stream.stdout) w
    let w := fclose sdp_fp w
    some w

/-- The function `rtsp_setup` (lines 98-106). -/
def rtsp_setup (env : Env) (uri transport : CStr) (w : World) : World :=
  let w := printf "\nRTSP: SETUP %s\n" [Arg.str uri] w
  let w := printf "      TRANSPORT %s\n" [Arg.str transport] w
  let w := my_curl_easy_setopt env "curl" "CURLOPT_RTSP_STREAM_URI" "uri"
    (CurlOpt.CURLOPT_RTSP_STREAM_URI uri) w
  let w := my_curl_easy_setopt env "curl" "CURLOPT_RTSP_TRANSPORT" "transport"
    (CurlOpt.CURLOPT_RTSP_TRANSPORT transport) w
  let w := my_curl_easy_setopt env "curl" "CURLOPT_RTSP_REQUEST" "CURL_RTSPREQ_SETUP"
    (CurlOpt.CURLOPT_RTSP_REQUEST RtspReq.SETUP) w
  my_curl_easy_perform env "curl" w

/-- The function `rtsp_play` (lines 110-117). -/
def rtsp_play (env : Env) (uri range : CStr) (w : World) : World :=
  let w := printf "\nRTSP: PLAY %s\n" [Arg.str uri] w
  let w := my_curl_easy_setopt env "curl" "CURLOPT_RTSP_STREAM_URI" "uri"
    (CurlOpt.CURLOPT_RTSP_STREAM_URI uri) w
  let w := my_curl_easy_setopt env "curl" "CURLOPT_RANGE" "range"
    (CurlOpt.CURLOPT_RANGE range) w
  let w := my_curl_easy_setopt env "curl" "CURLOPT_RTSP_REQUEST" "CURL_RTSPREQ_PLAY"
    (CurlOpt.CURLOPT_RTSP_REQUEST RtspReq.PLAY) w
  my_curl_easy_perform env "curl" w

/-- The function `rtsp_teardown` (lines 121-126). -/
def rtsp_teardown (env : Env) (uri : CStr) (w : World) : World :=
  let w := printf "\nRTSP: TEARDOWN %s\n" [Arg.str uri] w
  let w := my_curl_easy_setopt env "curl" "CURLOPT_RTSP_REQUEST" "CURL_RTSPREQ_TEARDOWN"
    (CurlOpt.CURLOPT_RTSP_REQUEST RtspReq.TEARDOWN) w
  my_curl_easy_perform env "curl" w

/-- The function `main` (lines 130-213): `argv` holds the `argc` strings of the
command line, the program name first.  The result is the exit status and the
final state. -/
def main (env : Env) (argv : List CStr) : Option (Int × World) :=
  let argc := argv.length
  let transport : CStr := "RTP/AVP;unicast;client_port=1234-1235".toList
  let range : CStr := "0.000-".toList
  let w := World.init
  let w := printf "\nRTSP request %s\n" [Arg.str VERSION_STR] w
  let w := printf "    Project web site: http://code.google.com/p/rtsprequest/\n" [] w
  let w := printf "    Requires cURL V7.20 or greater\n\n" [] w
  if argc ≠ 2 ∧ argc ≠ 3 then
    match argv[0]? with
    | none => none
    | some argv0 =>
      let basename :=
        match strrchr argv0 '/' with
        | some b => some b
        | none => strrchr argv0 (Char.ofNat 92)
      let basename :=
        match basename with
        | none => argv0
        | some b => b.drop 1
      let w := printf "Usage:   %s url [transport]\n" [Arg.str basename] w
      let w := printf "         url of video server\n" [] w
      let w := printf "         transport (optional) specifier for media stream protocol\n" [] w
      let w := printf "         default transport: %s\n" [Arg.str transport] w
      let w := printf "Example: %s rtsp://192.168.0.2/media/video1\n\n" [Arg.str basename] w
      some (EXIT_FAILURE, w)
  else
    match argv[1]? with
    | none => none
    | some url =>
      let uri_cap := url.length + 32
      match (if argc = 3 then argv[2]? else some transport) with
      | none => none
      | some transport =>
        let (res, w) := curl_global_init env w
        if res = CURLE_OK then
          let (version, w) := curl_version_info env w
          let w := fprintf Stream.stderr "    cURL V%s loaded\n" [Arg.str version] w
          let (curl, w) := curl_easy_init env w
          if curl then
            let w := my_curl_easy_setopt env "curl" "CURLOPT_VERBOSE" "0L"
              (CurlOpt.CURLOPT_VERBOSE 0) w
            let w := my_curl_easy_setopt env "curl" "CURLOPT_NOPROGRESS" "1L"
              (CurlOpt.CURLOPT_NOPROGRESS 1) w
            let w := my_curl_easy_setopt env "curl" "CURLOPT_WRITEHEADER" "stdout"
              (CurlOpt.CURLOPT_WRITEHEADER Stream.stdout) w
            let w := my_curl_easy_setopt env "curl" "CURLOPT_URL" "url"
              (CurlOpt.CURLOPT_URL url) w
            match sprintf uri_cap "%s" [url] with
            | none => none
            | some uri =>
              let w := rtsp_options env uri w
              match rtsp_describe env uri w with
              | none => none
              | some w =>
                match sprintf uri_cap "%s/video" [url] with
                | none => none
                | some uri =>
                  let w := rtsp_setup env uri transport w
                  match sprintf uri_cap "%s/" [url] with
                  | none => none
                  | some uri =>
                    let w := rtsp_play env uri range w
                    let w := printf "Playing video, press any key to stop ..." [] w
                    let w := getch w
                    let w := printf "\n" [] w
                    let w := rtsp_teardown env uri w
                    let w := curl_easy_cleanup w
                    some (EXIT_SUCCESS, curl_global_cleanup w)
          else
            let w := fprintf Stream.stderr "curl_easy_init() failed\n" [] w
            some (EXIT_SUCCESS, curl_global_cleanup w)
        else
          let w := fprintf Stream.stderr "curl_global_init(%s) failed\n"
            [Arg.str "CURL_GLOBAL_ALL".toList, Arg.int res] w
          some (EXIT_SUCCESS, w)

/-! ## Reading a trace -/

/-- What a request is made with: its kind and its stream URI. -/
def Handle.target (h : Handle) : Option RtspReq × Option CStr :=
  (h.rtsp_request, h.rtsp_stream_uri)

/-- A step of the session as the program drives it: the request kind it
selects (the value it passes for `CURLOPT_RTSP_REQUEST`), a
`curl_easy_perform` call, the wait for a key. -/
inductive Step where
  | select (r : RtspReq)
  | perform
  | keypress
  deriving DecidableEq, Repr

/-- The step an event stands for, if any. -/
def Event.step : Event → Option Step
  | .curl_easy_setopt (.CURLOPT_RTSP_REQUEST r) _ => some (Step.select r)
  | .curl_easy_perform _ _ => some Step.perform
  | .getch => some Step.keypress
  | _ => none

/-- The steps of a trace, in order. -/
def steps (tr : List Event) : List Step :=
  tr.filterMap Event.step

/-- The file name of an `fopen` call. -/
def Event.opened : Event → Option CStr
  | .fopen name _ => some name
  | _ => none

/-- The file names of the `fopen` calls of a trace, in order. -/
def fopen_calls (tr : List Event) : List CStr :=
  tr.filterMap Event.opened

/-- The transport specifier passed by a `curl_easy_setopt` call for
`CURLOPT_RTSP_TRANSPORT`. -/
def Event.transport : Event → Option CStr
  | .curl_easy_setopt (.CURLOPT_RTSP_TRANSPORT s) _ => some s
  | _ => none

/-- The transport specifiers passed to the handle in a trace, in order. -/
def transport_calls (tr : List Event) : List CStr :=
  tr.filterMap Event.transport

/-- What happens to the response body's write target and to the streams: a
`CURLOPT_WRITEDATA` call with its result, a `curl_easy_perform` call, an
`fclose` call. -/
inductive Output where
  | target (fp : Stream) (res : CURLcode)
  | perform
  | close (fp : Stream)
  deriving DecidableEq, Repr

/-- The stream URI passed by a `curl_easy_setopt` call for
`CURLOPT_RTSP_STREAM_URI`. -/
def Event.stream_uri : Event → Option CStr
  | .curl_easy_setopt (.CURLOPT_RTSP_STREAM_URI s) _ => some s
  | _ => none

/-- The stream URIs passed to the handle in a trace, in order. -/
def stream_uri_calls (tr : List Event) : List CStr :=
  tr.filterMap Event.stream_uri

/-- The output step an event stands for, if any. -/
def Event.output : Event → Option Output
  | .curl_easy_setopt (.CURLOPT_WRITEDATA fp) res => some (Output.target fp res)
  | .curl_easy_perform _ _ => some Output.perform
  | .fclose fp => some (Output.close fp)
  | _ => none

/-- The output steps of a trace, in order. -/
def outputs (tr : List Event) : List Output :=
  tr.filterMap Event.output

/-- The stream of an `fclose` call. -/
def Event.closed : Event → Option Stream
  | .fclose fp => some fp
  | _ => none

/-- The streams passed to `fclose` in a trace, in order. -/
def fclose_calls (tr : List Event) : List Stream :=
  tr.filterMap Event.closed

/-- Whether an event is a call into libcurl. -/
def Event.is_curl : Event → Bool
  | .curl_global_init _ => true
  | .curl_version_info => true
  | .curl_easy_init _ => true
  | .curl_easy_setopt _ _ => true
  | .curl_easy_perform _ _ => true
  | .curl_easy_cleanup => true
  | .curl_global_cleanup => true
  | _ => false

/-- The state in which `rtsp_describe` returns (the entry state if it does not). -/
def rtsp_describe_run (env : Env) (uri : CStr) (w : World) : World :=
  (rtsp_describe env uri w).getD w

/-- The state of `main` at line 180, where the session starts: the banner has
been printed, libcurl and the handle have been initialised, and the four
options of lines 174-177 have been passed to the handle. -/
def session_start (env : Env) (url : CStr) : World :=
  let w := printf "\nRTSP request %s\n" [Arg.str VERSION_STR] World.init
  let w := printf "    Project web site: http://code.google.com/p/rtsprequest/\n" [] w
  let w := printf "    Requires cURL V7.20 or greater\n\n" [] w
  let w := (curl_global_init env w).2
  let w := (curl_version_info env w).2
  let w := fprintf Stream.stderr "    cURL V%s loaded\n" [Arg.str env.version] w
  let w := (curl_easy_init env w).2
  let w := my_curl_easy_setopt env "curl" "CURLOPT_VERBOSE" "0L" (CurlOpt.CURLOPT_VERBOSE 0) w
  let w := my_curl_easy_setopt env "curl" "CURLOPT_NOPROGRESS" "1L"
    (CurlOpt.CURLOPT_NOPROGRESS 1) w
  let w := my_curl_easy_setopt env "curl" "CURLOPT_WRITEHEADER" "stdout"
    (CurlOpt.CURLOPT_WRITEHEADER Stream.stdout) w
  my_curl_easy_setopt env "curl" "CURLOPT_URL" "url" (CurlOpt.CURLOPT_URL url) w

/-! ## The file name, in the words of the specification -/

/-- The substring after the last `/` of a string (the whole string if it has none). -/
def after_last_slash (uri : CStr) : CStr :=
  (uri.reverse.takeWhile (fun c => decide (c ≠ '/'))).reverse

/-- The SDP file name as the specification derives it: the substring after
the last `/` followed by `.sdp` when the URI has a `/` and that substring
is not empty, and `video.sdp` otherwise. -/
def spec_sdp_filename (uri : CStr) : CStr :=
  if '/' ∈ uri ∧ after_last_slash uri ≠ [] then after_last_slash uri ++ ".sdp".toList
  else "video.sdp".toList

/-! ## Concrete environments -/

/-- An environment in which every call succeeds. -/
def env_ok : Env :=
  { global_init := CURLE_OK, version := "7.20.0".toList, easy_init := true,
    setopt := fun _ _ => CURLE_OK, perform := fun _ => CURLE_OK, fopen := fun _ => true }

/-- An environment in which no file can be opened for writing and every
other call succeeds. -/
def env_no_file : Env :=
  { env_ok with fopen := fun _ => false }

/-! ## Strings -/

theorem strrchr_eq_none {c : Char} : ∀ {s : CStr}, c ∉ s → strrchr s c = none
  | [], _ => rfl
  | x :: xs, h => by
    have hx : ¬ x = c := fun e => h (by simp [e])
    have hxs : c ∉ xs := fun e => h (by simp [e])
    simp [strrchr, strrchr_eq_none hxs, hx]

theorem strrchr_append_cons {c : Char} {s : CStr} (hs : c ∉ s) :
    ∀ pre : CStr, strrchr (pre ++ c :: s) c = some (c :: s)
  | [] => by simp [strrchr, strrchr_eq_none hs]
  | x :: pre => by simp [strrchr, strrchr_append_cons hs pre]

theorem strrchr_suffix {c : Char} : ∀ {s r : CStr}, strrchr s c = some r → r <:+ s
  | [], r, h => by simp [strrchr] at h
  | x :: xs, r, h => by
    unfold strrchr at h
    cases hx : strrchr xs c with
    | some r2 =>
      rw [hx] at h
      cases h
      exact (strrchr_suffix hx).trans (List.suffix_cons x xs)
    | none =>
      rw [hx] at h
      by_cases hc : x = c
      · subst hc
        simp at h
        subst h
        exact List.suffix_refl _
      · simp [hc] at h

theorem takeWhile_append_cons {α : Type} (p : α → Bool) (a : α) (r : List α) (ha : p a = false) :
    ∀ l : List α, (∀ x ∈ l, p x = true) → (l ++ a :: r).takeWhile p = l
  | [], _ => by simp [List.takeWhile, ha]
  | x :: l, h => by
    have hx : p x = true := h x (by simp)
    have hl : ∀ y ∈ l, p y = true := fun y hy => h y (by simp [hy])
    simp [List.takeWhile, hx, takeWhile_append_cons p a r ha l hl]

/-- The definition `after_last_slash` is the substring after the last `/`: a string
that ends in a `/` followed by a `/`-free `s` has `s` after its last `/`. -/
theorem after_last_slash_append (pre s : CStr) (hs : '/' ∉ s) :
    after_last_slash (pre ++ '/' :: s) = s := by
  unfold after_last_slash
  rw [List.reverse_append, List.reverse_cons, List.append_assoc, List.singleton_append,
    takeWhile_append_cons _ _ _ (by simp) _ (by
      intro x hx
      have : x ≠ '/' := fun e => hs (by simpa [e] using hx)
      simpa using this)]
  simp

theorem exists_last_split {c : Char} {s : CStr} (h : c ∈ s) :
    ∃ pre suf, s = pre ++ c :: suf ∧ c ∉ suf := by
  have h2 : c ∈ s.reverse := by simpa using h
  obtain ⟨a, b, hab, hna⟩ := List.eq_append_cons_of_mem h2
  refine ⟨b.reverse, a.reverse, ?_, by simpa using hna⟩
  have := congrArg List.reverse hab
  simpa using this

theorem sprintf_sdp (s : CStr) :
    sprintf (s.length + 8) "%s.sdp" [s] = some (s ++ ".sdp".toList) := by
  have h : format "%s.sdp".toList [s] = s ++ ".sdp".toList := rfl
  simp only [sprintf, h]
  simp

theorem sprintf_url (u : CStr) : sprintf (u.length + 32) "%s" [u] = some u := by
  have h : format "%s".toList [u] = u ++ [] := rfl
  simp only [sprintf, h]
  simp

theorem sprintf_video (u : CStr) :
    sprintf (u.length + 32) "%s/video" [u] = some (u ++ "/video".toList) := by
  have h : format "%s/video".toList [u] = u ++ "/video".toList := rfl
  simp only [sprintf, h]
  simp

theorem sprintf_slash (u : CStr) :
    sprintf (u.length + 32) "%s/" [u] = some (u ++ "/".toList) := by
  have h : format "%s/".toList [u] = u ++ "/".toList := rfl
  simp only [sprintf, h]
  simp

/-- Lines 63-78 compute the file name of the specification, and never write
past the end of the buffer they allocate. -/
theorem sdp_filename_eq (uri : CStr) :
    sdp_filename uri
      = some (spec_sdp_filename uri, decide ('/' ∈ uri ∧ after_last_slash uri ≠ [])) := by
  by_cases h : '/' ∈ uri
  · obtain ⟨pre, s, rfl, hs⟩ := exists_last_split h
    have ha := after_last_slash_append pre s hs
    by_cases he : s = []
    · subst he
      simp [sdp_filename, spec_sdp_filename, strrchr_append_cons hs, ha]
    · simp [sdp_filename, spec_sdp_filename, strrchr_append_cons hs, ha, he, sprintf_sdp]
  · simp [sdp_filename, spec_sdp_filename, strrchr_eq_none h, h]

/-- The function `rtsp_describe` always returns. -/
theorem rtsp_describe_eq (env : Env) (uri : CStr) (w : World) :
    rtsp_describe env uri w = some (rtsp_describe_run env uri w) := by
  unfold rtsp_describe_run rtsp_describe
  rw [sdp_filename_eq]
  rfl

/-! ## The calls, one by one -/

@[simp] theorem emit_trace (e : Event) (w : World) : (emit e w).trace = w.trace ++ [e] := rfl

@[simp] theorem emit_handle (e : Event) (w : World) : (emit e w).handle = w.handle := rfl

@[simp] theorem emit_open_streams (e : Event) (w : World) :
    (emit e w).open_streams = w.open_streams := rfl

theorem my_setopt_filterMap {α : Type} (f : Event → Option α)
    (hf : ∀ fp fmt args, f (Event.fprintf fp fmt args) = none)
    (env : Env) (A B C : String) (o : CurlOpt) (w : World) :
    (my_curl_easy_setopt env A B C o w).trace.filterMap f
      = w.trace.filterMap f ++ (f (Event.curl_easy_setopt o (env.setopt w.setopts o))).toList := by
  unfold my_curl_easy_setopt curl_easy_setopt fprintf
  generalize env.setopt w.setopts o = r
  by_cases h : r = CURLE_OK
  · subst h
    cases hx : f (Event.curl_easy_setopt o CURLE_OK) <;> simp [hx, List.filterMap_append]
  · cases hx : f (Event.curl_easy_setopt o r) <;> simp [h, hx, hf, List.filterMap_append]

@[simp] theorem my_setopt_handle (env : Env) (A B C : String) (o : CurlOpt) (w : World) :
    (my_curl_easy_setopt env A B C o w).handle = o.effect (env.setopt w.setopts o) w.handle := by
  unfold my_curl_easy_setopt curl_easy_setopt fprintf
  by_cases h : env.setopt w.setopts o = CURLE_OK <;> simp [h]

@[simp] theorem my_setopt_open_streams (env : Env) (A B C : String) (o : CurlOpt) (w : World) :
    (my_curl_easy_setopt env A B C o w).open_streams = w.open_streams := by
  unfold my_curl_easy_setopt curl_easy_setopt fprintf
  by_cases h : env.setopt w.setopts o = CURLE_OK <;> simp [h]

@[simp] theorem my_setopt_setopts (env : Env) (A B C : String) (o : CurlOpt) (w : World) :
    (my_curl_easy_setopt env A B C o w).setopts = w.setopts + 1 := by
  simp [World.setopts, setopt_calls, my_setopt_filterMap, Event.setopt_call]

theorem my_perform_filterMap {α : Type} (f : Event → Option α)
    (hf : ∀ fp fmt args, f (Event.fprintf fp fmt args) = none)
    (env : Env) (A : String) (w : World) :
    (my_curl_easy_perform env A w).trace.filterMap f
      = w.trace.filterMap f
        ++ (f (Event.curl_easy_perform w.handle (env.perform w.performs))).toList := by
  unfold my_curl_easy_perform curl_easy_perform fprintf
  generalize env.perform w.performs = r
  by_cases h : r = CURLE_OK
  · subst h
    cases hx : f (Event.curl_easy_perform w.handle CURLE_OK) <;>
      simp [hx, List.filterMap_append]
  · cases hx : f (Event.curl_easy_perform w.handle r) <;>
      simp [h, hx, hf, List.filterMap_append]

@[simp] theorem my_perform_handle (env : Env) (A : String) (w : World) :
    (my_curl_easy_perform env A w).handle = w.handle := by
  unfold my_curl_easy_perform curl_easy_perform fprintf
  by_cases h : env.perform w.performs = CURLE_OK <;> simp [h]

@[simp] theorem my_perform_open_streams (env : Env) (A : String) (w : World) :
    (my_curl_easy_perform env A w).open_streams = w.open_streams := by
  unfold my_curl_easy_perform curl_easy_perform fprintf
  by_cases h : env.perform w.performs = CURLE_OK <;> simp [h]

@[simp] theorem my_perform_setopts (env : Env) (A : String) (w : World) :
    (my_curl_easy_perform env A w).setopts = w.setopts := by
  simp [World.setopts, setopt_calls, my_perform_filterMap, Event.setopt_call]

@[simp] theorem emit_setopts (e : Event) (w : World) :
    (emit e w).setopts = w.setopts + (Event.setopt_call e).toList.length := by
  cases h : Event.setopt_call e <;>
    simp [World.setopts, setopt_calls, List.filterMap_append, h]

@[simp] theorem fclose_trace (fp : Stream) (w : World) :
    (fclose fp w).trace = w.trace ++ [Event.fclose fp] := rfl

@[simp] theorem fclose_handle (fp : Stream) (w : World) : (fclose fp w).handle = w.handle := rfl

@[simp] theorem fclose_setopts (fp : Stream) (w : World) : (fclose fp w).setopts = w.setopts := by
  simp [World.setopts, setopt_calls, List.filterMap_append, Event.setopt_call]

/-- The state of `rtsp_describe` after lines 79-85: the file has been opened, or
could not be. -/
theorem rtsp_describe_run_eq (env : Env) (uri : CStr) (w : World) :
    rtsp_describe_run env uri w
      = (if env.fopen (spec_sdp_filename uri) then
          fclose (Stream.file (spec_sdp_filename uri))
            (my_curl_easy_setopt env "curl" "CURLOPT_WRITEDATA" "stdout"
              (CurlOpt.CURLOPT_WRITEDATA Stream.stdout)
              (my_curl_easy_perform env "curl"
                (my_curl_easy_setopt env "curl" "CURLOPT_RTSP_REQUEST" "CURL_RTSPREQ_DESCRIBE"
                  (CurlOpt.CURLOPT_RTSP_REQUEST RtspReq.DESCRIBE)
                  (my_curl_easy_setopt env "curl" "CURLOPT_WRITEDATA" "sdp_fp"
                    (CurlOpt.CURLOPT_WRITEDATA (Stream.file (spec_sdp_filename uri)))
                    (printf "Writing SDP to '%s'\n" [Arg.str (spec_sdp_filename uri)]
                      (fopen env (spec_sdp_filename uri)
                        (printf "\nRTSP: DESCRIBE %s\n" [Arg.str uri] w)).2)))))
        else
          fclose Stream.stdout
            (my_curl_easy_setopt env "curl" "CURLOPT_WRITEDATA" "stdout"
              (CurlOpt.CURLOPT_WRITEDATA Stream.stdout)
              (my_curl_easy_perform env "curl"
                (my_curl_easy_setopt env "curl" "CURLOPT_RTSP_REQUEST" "CURL_RTSPREQ_DESCRIBE"
                  (CurlOpt.CURLOPT_RTSP_REQUEST RtspReq.DESCRIBE)
                  (my_curl_easy_setopt env "curl" "CURLOPT_WRITEDATA" "sdp_fp"
                    (CurlOpt.CURLOPT_WRITEDATA Stream.stdout)
                    (fprintf Stream.stderr "Could not open '%s' for writing\n"
                      [Arg.str (spec_sdp_filename uri)]
                      (fopen env (spec_sdp_filename uri)
                        (printf "\nRTSP: DESCRIBE %s\n" [Arg.str uri] w)).2)))))) := by
  unfold rtsp_describe_run rtsp_describe
  rw [sdp_filename_eq]
  by_cases h : env.fopen (spec_sdp_filename uri) <;> simp [fopen, h]

@[simp] theorem fopen_trace (env : Env) (name : CStr) (w : World) :
    (fopen env name w).2.trace = w.trace ++ [Event.fopen name (env.fopen name)] := by
  unfold fopen
  by_cases h : env.fopen name <;> simp [h]

@[simp] theorem fopen_handle (env : Env) (name : CStr) (w : World) :
    (fopen env name w).2.handle = w.handle := by
  unfold fopen
  by_cases h : env.fopen name <;> simp [h]

@[simp] theorem fopen_setopts (env : Env) (name : CStr) (w : World) :
    (fopen env name w).2.setopts = w.setopts := by
  simp [World.setopts, setopt_calls, List.filterMap_append, Event.setopt_call]

/-! ## The request functions -/

section requests

variable (env : Env) (uri : CStr) (w : World)

@[simp] theorem rtsp_options_handle :
    (rtsp_options env uri w).handle
      = (CurlOpt.CURLOPT_RTSP_REQUEST RtspReq.OPTIONS).effect
          (env.setopt (w.setopts + 1) (CurlOpt.CURLOPT_RTSP_REQUEST RtspReq.OPTIONS))
          ((CurlOpt.CURLOPT_RTSP_STREAM_URI uri).effect
            (env.setopt w.setopts (CurlOpt.CURLOPT_RTSP_STREAM_URI uri)) w.handle) := by
  simp [rtsp_options, printf, Event.setopt_call]

@[simp] theorem rtsp_options_setopts : (rtsp_options env uri w).setopts = w.setopts + 2 := by
  simp [rtsp_options, printf, Event.setopt_call]

@[simp] theorem rtsp_describe_handle :
    (rtsp_describe_run env uri w).handle
      = (CurlOpt.CURLOPT_WRITEDATA Stream.stdout).effect
          (env.setopt (w.setopts + 2) (CurlOpt.CURLOPT_WRITEDATA Stream.stdout))
          ((CurlOpt.CURLOPT_RTSP_REQUEST RtspReq.DESCRIBE).effect
            (env.setopt (w.setopts + 1) (CurlOpt.CURLOPT_RTSP_REQUEST RtspReq.DESCRIBE))
            ((CurlOpt.CURLOPT_WRITEDATA
                (if env.fopen (spec_sdp_filename uri) then Stream.file (spec_sdp_filename uri)
                  else Stream.stdout)).effect
              (env.setopt w.setopts (CurlOpt.CURLOPT_WRITEDATA
                (if env.fopen (spec_sdp_filename uri) then Stream.file (spec_sdp_filename uri)
                  else Stream.stdout))) w.handle)) := by
  rw [rtsp_describe_run_eq]
  by_cases h : env.fopen (spec_sdp_filename uri) <;>
    simp [h, printf, fprintf, Event.setopt_call]

@[simp] theorem rtsp_describe_setopts :
    (rtsp_describe_run env uri w).setopts = w.setopts + 3 := by
  rw [rtsp_describe_run_eq]
  by_cases h : env.fopen (spec_sdp_filename uri) <;>
    simp [h, printf, fprintf, Event.setopt_call]

@[simp] theorem rtsp_setup_handle (transport : CStr) :
    (rtsp_setup env uri transport w).handle
      = (CurlOpt.CURLOPT_RTSP_REQUEST RtspReq.SETUP).effect
          (env.setopt (w.setopts + 2) (CurlOpt.CURLOPT_RTSP_REQUEST RtspReq.SETUP))
          ((CurlOpt.CURLOPT_RTSP_TRANSPORT transport).effect
            (env.setopt (w.setopts + 1) (CurlOpt.CURLOPT_RTSP_TRANSPORT transport))
            ((CurlOpt.CURLOPT_RTSP_STREAM_URI uri).effect
              (env.setopt w.setopts (CurlOpt.CURLOPT_RTSP_STREAM_URI uri)) w.handle)) := by
  simp [rtsp_setup, printf, Event.setopt_call]

@[simp] theorem rtsp_setup_setopts (transport : CStr) :
    (rtsp_setup env uri transport w).setopts = w.setopts + 3 := by
  simp [rtsp_setup, printf, Event.setopt_call]

@[simp] theorem rtsp_play_handle (range : CStr) :
    (rtsp_play env uri range w).handle
      = (CurlOpt.CURLOPT_RTSP_REQUEST RtspReq.PLAY).effect
          (env.setopt (w.setopts + 2) (CurlOpt.CURLOPT_RTSP_REQUEST RtspReq.PLAY))
          ((CurlOpt.CURLOPT_RANGE range).effect
            (env.setopt (w.setopts + 1) (CurlOpt.CURLOPT_RANGE range))
            ((CurlOpt.CURLOPT_RTSP_STREAM_URI uri).effect
              (env.setopt w.setopts (CurlOpt.CURLOPT_RTSP_STREAM_URI uri)) w.handle)) := by
  simp [rtsp_play, printf, Event.setopt_call]

@[simp] theorem rtsp_play_setopts (range : CStr) :
    (rtsp_play env uri range w).setopts = w.setopts + 3 := by
  simp [rtsp_play, printf, Event.setopt_call]

@[simp] theorem rtsp_teardown_handle :
    (rtsp_teardown env uri w).handle
      = (CurlOpt.CURLOPT_RTSP_REQUEST RtspReq.TEARDOWN).effect
          (env.setopt w.setopts (CurlOpt.CURLOPT_RTSP_REQUEST RtspReq.TEARDOWN)) w.handle := by
  simp [rtsp_teardown, printf, Event.setopt_call]

@[simp] theorem rtsp_teardown_setopts : (rtsp_teardown env uri w).setopts = w.setopts + 1 := by
  simp [rtsp_teardown, printf, Event.setopt_call]

/-! ### The requests performed -/

theorem performed_options :
    performed (rtsp_options env uri w).trace
      = performed w.trace ++ [(rtsp_options env uri w).handle] := by
  simp [performed, rtsp_options, printf, my_setopt_filterMap, my_perform_filterMap,
    List.filterMap_append, Event.snapshot, Event.setopt_call]

theorem performed_describe :
    performed (rtsp_describe_run env uri w).trace
      = performed w.trace ++
        [(CurlOpt.CURLOPT_RTSP_REQUEST RtspReq.DESCRIBE).effect
            (env.setopt (w.setopts + 1) (CurlOpt.CURLOPT_RTSP_REQUEST RtspReq.DESCRIBE))
            ((CurlOpt.CURLOPT_WRITEDATA
                (if env.fopen (spec_sdp_filename uri) then Stream.file (spec_sdp_filename uri)
                  else Stream.stdout)).effect
              (env.setopt w.setopts (CurlOpt.CURLOPT_WRITEDATA
                (if env.fopen (spec_sdp_filename uri) then Stream.file (spec_sdp_filename uri)
                  else Stream.stdout))) w.handle)] := by
  rw [rtsp_describe_run_eq]
  by_cases h : env.fopen (spec_sdp_filename uri) <;>
    simp [h, performed, printf, fprintf, my_setopt_filterMap, my_perform_filterMap,
      List.filterMap_append, Event.snapshot, Event.setopt_call]

theorem performed_setup (transport : CStr) :
    performed (rtsp_setup env uri transport w).trace
      = performed w.trace ++ [(rtsp_setup env uri transport w).handle] := by
  simp [performed, rtsp_setup, printf, my_setopt_filterMap, my_perform_filterMap,
    List.filterMap_append, Event.snapshot, Event.setopt_call]

theorem performed_play (range : CStr) :
    performed (rtsp_play env uri range w).trace
      = performed w.trace ++ [(rtsp_play env uri range w).handle] := by
  simp [performed, rtsp_play, printf, my_setopt_filterMap, my_perform_filterMap,
    List.filterMap_append, Event.snapshot, Event.setopt_call]

theorem performed_teardown :
    performed (rtsp_teardown env uri w).trace
      = performed w.trace ++ [(rtsp_teardown env uri w).handle] := by
  simp [performed, rtsp_teardown, printf, my_setopt_filterMap, my_perform_filterMap,
    List.filterMap_append, Event.snapshot, Event.setopt_call]

/-! ### The steps of the session -/

theorem steps_options :
    steps (rtsp_options env uri w).trace
      = steps w.trace ++ [Step.select RtspReq.OPTIONS, Step.perform] := by
  simp [steps, rtsp_options, printf, my_setopt_filterMap, my_perform_filterMap,
    List.filterMap_append, Event.step]

theorem steps_describe :
    steps (rtsp_describe_run env uri w).trace
      = steps w.trace ++ [Step.select RtspReq.DESCRIBE, Step.perform] := by
  rw [rtsp_describe_run_eq]
  by_cases h : env.fopen (spec_sdp_filename uri) <;>
    simp [h, steps, printf, fprintf, my_setopt_filterMap, my_perform_filterMap,
      List.filterMap_append, Event.step]

theorem steps_setup (transport : CStr) :
    steps (rtsp_setup env uri transport w).trace
      = steps w.trace ++ [Step.select RtspReq.SETUP, Step.perform] := by
  simp [steps, rtsp_setup, printf, my_setopt_filterMap, my_perform_filterMap,
    List.filterMap_append, Event.step]

theorem steps_play (range : CStr) :
    steps (rtsp_play env uri range w).trace
      = steps w.trace ++ [Step.select RtspReq.PLAY, Step.perform] := by
  simp [steps, rtsp_play, printf, my_setopt_filterMap, my_perform_filterMap,
    List.filterMap_append, Event.step]

theorem steps_teardown :
    steps (rtsp_teardown env uri w).trace
      = steps w.trace ++ [Step.select RtspReq.TEARDOWN, Step.perform] := by
  simp [steps, rtsp_teardown, printf, my_setopt_filterMap, my_perform_filterMap,
    List.filterMap_append, Event.step]

/-! ### The transport specifiers passed -/

theorem transport_calls_options :
    transport_calls (rtsp_options env uri w).trace = transport_calls w.trace := by
  simp [transport_calls, rtsp_options, printf, my_setopt_filterMap, my_perform_filterMap,
    List.filterMap_append, Event.transport]

theorem transport_calls_describe :
    transport_calls (rtsp_describe_run env uri w).trace = transport_calls w.trace := by
  rw [rtsp_describe_run_eq]
  by_cases h : env.fopen (spec_sdp_filename uri) <;>
    simp [h, transport_calls, printf, fprintf, my_setopt_filterMap, my_perform_filterMap,
      List.filterMap_append, Event.transport]

theorem transport_calls_setup (transport : CStr) :
    transport_calls (rtsp_setup env uri transport w).trace
      = transport_calls w.trace ++ [transport] := by
  simp [transport_calls, rtsp_setup, printf, my_setopt_filterMap, my_perform_filterMap,
    List.filterMap_append, Event.transport]

theorem transport_calls_play (range : CStr) :
    transport_calls (rtsp_play env uri range w).trace = transport_calls w.trace := by
  simp [transport_calls, rtsp_play, printf, my_setopt_filterMap, my_perform_filterMap,
    List.filterMap_append, Event.transport]

theorem transport_calls_teardown :
    transport_calls (rtsp_teardown env uri w).trace = transport_calls w.trace := by
  simp [transport_calls, rtsp_teardown, printf, my_setopt_filterMap, my_perform_filterMap,
    List.filterMap_append, Event.transport]

end requests

/-! ## The run of `main` -/

theorem session_start_setopts (env : Env) (u : CStr) : (session_start env u).setopts = 4 := by
  simp [session_start, curl_global_init, curl_version_info, curl_easy_init, printf, fprintf,
    Event.setopt_call, World.setopts, setopt_calls, World.init, my_setopt_filterMap,
    List.filterMap_append]

theorem session_start_handle (env : Env) (u : CStr) :
    (session_start env u).handle
      = (CurlOpt.CURLOPT_URL u).effect (env.setopt 3 (CurlOpt.CURLOPT_URL u))
          ((CurlOpt.CURLOPT_WRITEHEADER Stream.stdout).effect
            (env.setopt 2 (CurlOpt.CURLOPT_WRITEHEADER Stream.stdout))
            ((CurlOpt.CURLOPT_NOPROGRESS 1).effect (env.setopt 1 (CurlOpt.CURLOPT_NOPROGRESS 1))
              ((CurlOpt.CURLOPT_VERBOSE 0).effect (env.setopt 0 (CurlOpt.CURLOPT_VERBOSE 0))
                {}))) := by
  have h0 : ∀ w : World, setopt_calls w.trace = [] → w.setopts = 0 := by
    intro w h
    simp [World.setopts, h]
  simp [session_start, curl_global_init, curl_version_info, curl_easy_init, printf, fprintf,
    Event.setopt_call, World.init]
  rw [h0]
  simp [setopt_calls, World.init, List.filterMap_append, Event.setopt_call]

theorem session_start_performed (env : Env) (u : CStr) :
    performed (session_start env u).trace = [] := by
  simp [session_start, curl_global_init, curl_version_info, curl_easy_init, printf, fprintf,
    Event.snapshot, performed, World.init, my_setopt_filterMap, List.filterMap_append]

theorem session_start_steps (env : Env) (u : CStr) : steps (session_start env u).trace = [] := by
  simp [session_start, curl_global_init, curl_version_info, curl_easy_init, printf, fprintf,
    Event.step, steps, World.init, my_setopt_filterMap, List.filterMap_append]

theorem session_start_transport_calls (env : Env) (u : CStr) :
    transport_calls (session_start env u).trace = [] := by
  simp [session_start, curl_global_init, curl_version_info, curl_easy_init, printf, fprintf,
    Event.transport, transport_calls, World.init, my_setopt_filterMap, List.filterMap_append]

/-- The run of `main` with one or two arguments when libcurl and the session
start. -/
theorem main_session (env : Env) (argv : List CStr) (u : CStr)
    (hargc : argv.length = 2 ∨ argv.length = 3) (hu : argv[1]? = some u)
    (hg : env.global_init = CURLE_OK) (he : env.easy_init = true) :
    main env argv = some (EXIT_SUCCESS,
        curl_global_cleanup (curl_easy_cleanup
          (rtsp_teardown env (u ++ "/".toList)
            (printf "\n" [] (getch (printf "Playing video, press any key to stop ..." []
              (rtsp_play env (u ++ "/".toList) "0.000-".toList
                (rtsp_setup env (u ++ "/video".toList)
                  ((argv[2]?).getD "RTP/AVP;unicast;client_port=1234-1235".toList)
                  (rtsp_describe_run env u (rtsp_options env u (session_start env u))))))))))) := by
  have hshape : (∃ a0, argv = [a0, u]) ∨ (∃ a0 t, argv = [a0, u, t]) := by
    rcases hargc with h | h
    · left
      match argv, h, hu with
      | [a0, u2], _, hu => exact ⟨a0, by simpa using hu⟩
    · right
      match argv, h, hu with
      | [a0, u2, t], _, hu => exact ⟨a0, t, by simpa using hu⟩
  rcases hshape with ⟨a0, rfl⟩ | ⟨a0, t, rfl⟩
  · simp only [main]
    simp [curl_global_init, hg, he, curl_easy_init, curl_version_info, sprintf_url,
      sprintf_video, sprintf_slash, rtsp_describe_eq, session_start]
  · simp only [main]
    simp [curl_global_init, hg, he, curl_easy_init, curl_version_info, sprintf_url,
      sprintf_video, sprintf_slash, rtsp_describe_eq, session_start]

/-! ## The option values of the handle -/

theorem effect_rtsp_stream_uri (o : CurlOpt) (r : CURLcode) (h : Handle) :
    (o.effect r h).rtsp_stream_uri
      = match o with
        | .CURLOPT_RTSP_STREAM_URI s => if r = CURLE_OK then some s else none
        | _ => h.rtsp_stream_uri := by
  cases o <;> by_cases hr : r = CURLE_OK <;>
    simp [CurlOpt.effect, CurlOpt.apply, CurlOpt.clear, hr]

theorem effect_rtsp_request (o : CurlOpt) (r : CURLcode) (h : Handle) :
    (o.effect r h).rtsp_request
      = match o with
        | .CURLOPT_RTSP_REQUEST q => if r = CURLE_OK then some q else h.rtsp_request
        | _ => h.rtsp_request := by
  cases o <;> by_cases hr : r = CURLE_OK <;>
    simp [CurlOpt.effect, CurlOpt.apply, CurlOpt.clear, hr]

theorem effect_rtsp_transport (o : CurlOpt) (r : CURLcode) (h : Handle) :
    (o.effect r h).rtsp_transport
      = match o with
        | .CURLOPT_RTSP_TRANSPORT s => if r = CURLE_OK then some s else none
        | _ => h.rtsp_transport := by
  cases o <;> by_cases hr : r = CURLE_OK <;>
    simp [CurlOpt.effect, CurlOpt.apply, CurlOpt.clear, hr]

theorem effect_writedata (o : CurlOpt) (r : CURLcode) (h : Handle) :
    (o.effect r h).writedata
      = match o with
        | .CURLOPT_WRITEDATA fp => if r = CURLE_OK then some fp else h.writedata
        | _ => h.writedata := by
  cases o <;> by_cases hr : r = CURLE_OK <;>
    simp [CurlOpt.effect, CurlOpt.apply, CurlOpt.clear, hr]

theorem performed_append (a b : List Event) : performed (a ++ b) = performed a ++ performed b :=
  List.filterMap_append _ _ _

theorem steps_append (a b : List Event) : steps (a ++ b) = steps a ++ steps b :=
  List.filterMap_append _ _ _

theorem transport_calls_append (a b : List Event) :
    transport_calls (a ++ b) = transport_calls a ++ transport_calls b :=
  List.filterMap_append _ _ _

/-! ## The claims -/

/-- Claim C1.  In every run of `main` with one or two arguments in which libcurl
and the session start and every option-setting call takes effect, the five
requests are performed, in this order, with these kinds and stream URIs on the
handle: OPTIONS and DESCRIBE with the base URL `u`, SETUP with `u ++ "/video"`,
PLAY and TEARDOWN with `u ++ "/"`. -/
theorem main_stream_uri_per_request (env : Env) (argv : List CStr) (u : CStr)
    (hargc : argv.length = 2 ∨ argv.length = 3) (hu : argv[1]? = some u)
    (hg : env.global_init = CURLE_OK) (he : env.easy_init = true)
    (hs : ∀ n o, env.setopt n o = CURLE_OK) :
    ∃ w, main env argv = some (EXIT_SUCCESS, w) ∧
      (performed w.trace).map Handle.target
        = [(some RtspReq.OPTIONS, some u),
           (some RtspReq.DESCRIBE, some u),
           (some RtspReq.SETUP, some (u ++ "/video".toList)),
           (some RtspReq.PLAY, some (u ++ "/".toList)),
           (some RtspReq.TEARDOWN, some (u ++ "/".toList))] := by
  refine ⟨_, main_session env argv u hargc hu hg he, ?_⟩
  simp [curl_global_cleanup, curl_easy_cleanup, getch, printf, performed_append,
    performed_teardown, performed_play, performed_setup, performed_describe, performed_options,
    session_start_performed, session_start_setopts, session_start_handle, Handle.target,
    effect_rtsp_stream_uri, effect_rtsp_request, hs, Event.setopt_call]
  simp [performed, Event.snapshot]

/-- Claim C4.  In every run of `main` with one or two arguments in which libcurl
and the session start, whatever the result codes of the option-setting and
perform calls, the steps of the run are: OPTIONS selected and performed,
DESCRIBE selected and performed, SETUP selected and performed, PLAY selected
and performed, the wait for a key, TEARDOWN selected and performed; there is
no other perform call. -/
theorem main_request_sequence (env : Env) (argv : List CStr)
    (hargc : argv.length = 2 ∨ argv.length = 3)
    (hg : env.global_init = CURLE_OK) (he : env.easy_init = true) :
    ∃ w, main env argv = some (EXIT_SUCCESS, w) ∧
      steps w.trace
        = [Step.select RtspReq.OPTIONS, Step.perform,
           Step.select RtspReq.DESCRIBE, Step.perform,
           Step.select RtspReq.SETUP, Step.perform,
           Step.select RtspReq.PLAY, Step.perform,
           Step.keypress,
           Step.select RtspReq.TEARDOWN, Step.perform] := by
  have hu : ∃ u, argv[1]? = some u := by
    rcases hargc with h | h
    · match argv, h with
      | [_, u], _ => exact ⟨u, rfl⟩
    · match argv, h with
      | [_, u, _], _ => exact ⟨u, rfl⟩
  obtain ⟨u, hu⟩ := hu
  refine ⟨_, main_session env argv u hargc hu hg he, ?_⟩
  simp [curl_global_cleanup, curl_easy_cleanup, getch, printf, steps_append,
    steps_teardown, steps_play, steps_setup, steps_describe, steps_options,
    session_start_steps]
  simp [steps, Event.step]

/-- Claim C6.  In every run of `main` that reaches SETUP, exactly one transport
specifier is passed to the handle: the second argument as it is when there is
one, and `RTP/AVP;unicast;client_port=1234-1235` when there is none.  It is
the transport specifier on the handle when SETUP (the third request) is
performed, provided that call (the eleventh option-setting call of the run)
succeeds; otherwise the handle has none. -/
theorem main_setup_transport (env : Env) (argv : List CStr)
    (hargc : argv.length = 2 ∨ argv.length = 3)
    (hg : env.global_init = CURLE_OK) (he : env.easy_init = true) :
    ∃ w, main env argv = some (EXIT_SUCCESS, w) ∧
      transport_calls w.trace
        = [(argv[2]?).getD "RTP/AVP;unicast;client_port=1234-1235".toList] ∧
      ((performed w.trace).map Handle.rtsp_transport)[2]?
        = some (if env.setopt 10 (CurlOpt.CURLOPT_RTSP_TRANSPORT
                  ((argv[2]?).getD "RTP/AVP;unicast;client_port=1234-1235".toList)) = CURLE_OK
                then some ((argv[2]?).getD "RTP/AVP;unicast;client_port=1234-1235".toList)
                else none) := by
  have hu : ∃ u, argv[1]? = some u := by
    rcases hargc with h | h
    · match argv, h with
      | [_, u], _ => exact ⟨u, rfl⟩
    · match argv, h with
      | [_, u, _], _ => exact ⟨u, rfl⟩
  obtain ⟨u, hu⟩ := hu
  refine ⟨_, main_session env argv u hargc hu hg he, ?_, ?_⟩
  · simp [curl_global_cleanup, curl_easy_cleanup, getch, printf, transport_calls_append,
      transport_calls_teardown, transport_calls_play, transport_calls_setup,
      transport_calls_describe, transport_calls_options, session_start_transport_calls]
    simp [transport_calls, Event.transport]
  · simp [curl_global_cleanup, curl_easy_cleanup, getch, printf, performed_append,
      performed_teardown, performed_play, performed_setup, performed_describe, performed_options,
      session_start_performed, session_start_setopts, session_start_handle,
      effect_rtsp_transport, Event.setopt_call]

/-! ### Usage errors and the exit status -/

/-- The run of `main` with an argument count other than 2 and 3. -/
theorem main_usage (env : Env) (argv0 : CStr) (rest : List CStr)
    (h2 : (argv0 :: rest).length ≠ 2) (h3 : (argv0 :: rest).length ≠ 3) :
    ∃ basename, basename <:+ argv0 ∧
      main env (argv0 :: rest) = some (EXIT_FAILURE,
        { trace :=
            [Event.printf "\nRTSP request %s\n" [Arg.str "V1.0".toList],
             Event.printf "    Project web site: http://code.google.com/p/rtsprequest/\n" [],
             Event.printf "    Requires cURL V7.20 or greater\n\n" [],
             Event.printf "Usage:   %s url [transport]\n" [Arg.str basename],
             Event.printf "         url of video server\n" [],
             Event.printf "         transport (optional) specifier for media stream protocol\n" [],
             Event.printf "         default transport: %s\n"
               [Arg.str "RTP/AVP;unicast;client_port=1234-1235".toList],
             Event.printf "Example: %s rtsp://192.168.0.2/media/video1\n\n" [Arg.str basename]],
          handle := {},
          open_streams := [Stream.stdout, Stream.stderr] }) := by
  have hbase : ∀ b : Option CStr, (∀ r, b = some r → r <:+ argv0) →
      (match b with | none => argv0 | some b => b.drop 1) <:+ argv0 := by
    intro b hb
    cases b with
    | none => exact List.suffix_refl _
    | some r => exact (List.drop_suffix 1 r).trans (hb r rfl)
  refine ⟨_, hbase (match strrchr argv0 '/' with
      | some b => some b
      | none => strrchr argv0 (Char.ofNat 92)) ?_, ?_⟩
  · intro r hr
    cases h : strrchr argv0 '/' with
    | some b =>
      rw [h] at hr
      cases hr
      exact strrchr_suffix h
    | none =>
      rw [h] at hr
      exact strrchr_suffix hr
  · have hc : (argv0 :: rest).length ≠ 2 ∧ (argv0 :: rest).length ≠ 3 := ⟨h2, h3⟩
    simp only [main]
    rw [if_pos hc]
    simp [printf, emit, World.init, VERSION_STR]

/-- The run of `main` with one or two arguments returns `EXIT_SUCCESS`. -/
theorem main_valid (env : Env) (argv : List CStr)
    (hargc : argv.length = 2 ∨ argv.length = 3) :
    ∃ w, main env argv = some (EXIT_SUCCESS, w) := by
  have hu : ∃ u, argv[1]? = some u := by
    rcases hargc with h | h
    · match argv, h with
      | [_, u], _ => exact ⟨u, rfl⟩
    · match argv, h with
      | [_, u, _], _ => exact ⟨u, rfl⟩
  obtain ⟨u, hu⟩ := hu
  by_cases hg : env.global_init = CURLE_OK
  · by_cases he : env.easy_init = true
    · exact ⟨_, main_session env argv u hargc hu hg he⟩
    · rcases hargc with h | h
      · match argv, h with
        | [_, u], _ => simp [main, curl_global_init, curl_version_info, curl_easy_init, hg, he]
      · match argv, h with
        | [_, u, _], _ => simp [main, curl_global_init, curl_version_info, curl_easy_init, hg, he]
  · rcases hargc with h | h
    · match argv, h with
      | [_, u], _ => simp [main, curl_global_init, hg]
    · match argv, h with
      | [_, u, _], _ => simp [main, curl_global_init, hg]

/-- Claim C3.  With a program name and an argument count other than 2 and 3, `main`
returns `EXIT_FAILURE`, which is not zero; the calls of the run are the three
lines of the banner and the five lines of the usage text, where `basename` is
taken from the program name; none of them is a call into libcurl. -/
theorem main_usage_error (env : Env) (argv : List CStr)
    (h0 : argv ≠ []) (h2 : argv.length ≠ 2) (h3 : argv.length ≠ 3) :
    ∃ w basename,
      main env argv = some (EXIT_FAILURE, w) ∧ EXIT_FAILURE ≠ 0 ∧
      w.trace =
        [Event.printf "\nRTSP request %s\n" [Arg.str "V1.0".toList],
         Event.printf "    Project web site: http://code.google.com/p/rtsprequest/\n" [],
         Event.printf "    Requires cURL V7.20 or greater\n\n" [],
         Event.printf "Usage:   %s url [transport]\n" [Arg.str basename],
         Event.printf "         url of video server\n" [],
         Event.printf "         transport (optional) specifier for media stream protocol\n" [],
         Event.printf "         default transport: %s\n"
           [Arg.str "RTP/AVP;unicast;client_port=1234-1235".toList],
         Event.printf "Example: %s rtsp://192.168.0.2/media/video1\n\n" [Arg.str basename]] ∧
      (∀ e ∈ w.trace, e.is_curl = false) := by
  match argv, h0 with
  | argv0 :: rest, _ =>
    obtain ⟨b, _, hm⟩ := main_usage env argv0 rest h2 h3
    refine ⟨_, b, hm, by decide, rfl, ?_⟩
    intro e he
    simp at he
    rcases he with h | h | h | h | h | h | h | h <;> subst h <;> rfl

/-- Claim C5.  Started with a program name, `main` returns, and its exit status is
not zero exactly when the argument count is neither 2 nor 3, whatever libcurl
returns. -/
theorem main_exit_status (env : Env) (argv : List CStr) (h0 : argv ≠ []) :
    ∃ rc w, main env argv = some (rc, w) ∧
      (rc ≠ 0 ↔ (argv.length ≠ 2 ∧ argv.length ≠ 3)) := by
  by_cases hargc : argv.length = 2 ∨ argv.length = 3
  · obtain ⟨w, hw⟩ := main_valid env argv hargc
    refine ⟨_, w, hw, ?_⟩
    simp only [EXIT_SUCCESS]
    constructor
    · intro h
      exact absurd rfl h
    · rintro ⟨h2, h3⟩
      rcases hargc with h | h
      · exact absurd h h2
      · exact absurd h h3
  · have h2 : argv.length ≠ 2 := fun h => hargc (Or.inl h)
    have h3 : argv.length ≠ 3 := fun h => hargc (Or.inr h)
    match argv, h0 with
    | argv0 :: rest, _ =>
      obtain ⟨b, _, hm⟩ := main_usage env argv0 rest h2 h3
      exact ⟨_, _, hm, fun _ => ⟨h2, h3⟩, fun _ => by decide⟩


theorem fopen_calls_describe (env : Env) (uri : CStr) (w : World) :
    fopen_calls (rtsp_describe_run env uri w).trace
      = fopen_calls w.trace ++ [spec_sdp_filename uri] := by
  rw [rtsp_describe_run_eq]
  by_cases h : env.fopen (spec_sdp_filename uri) <;>
    simp [h, fopen_calls, printf, fprintf, my_setopt_filterMap, my_perform_filterMap,
      List.filterMap_append, Event.opened]

theorem fclose_calls_describe (env : Env) (uri : CStr) (w : World) :
    fclose_calls (rtsp_describe_run env uri w).trace
      = fclose_calls w.trace ++
        [if env.fopen (spec_sdp_filename uri) then Stream.file (spec_sdp_filename uri)
          else Stream.stdout] := by
  rw [rtsp_describe_run_eq]
  by_cases h : env.fopen (spec_sdp_filename uri) <;>
    simp [h, fclose_calls, printf, fprintf, my_setopt_filterMap, my_perform_filterMap,
      List.filterMap_append, Event.closed]

theorem outputs_describe (env : Env) (uri : CStr) (w : World) :
    outputs (rtsp_describe_run env uri w).trace
      = outputs w.trace ++
        [Output.target
            (if env.fopen (spec_sdp_filename uri) then Stream.file (spec_sdp_filename uri)
              else Stream.stdout)
            (env.setopt w.setopts (CurlOpt.CURLOPT_WRITEDATA
              (if env.fopen (spec_sdp_filename uri) then Stream.file (spec_sdp_filename uri)
                else Stream.stdout))),
          Output.perform,
          Output.target Stream.stdout
            (env.setopt (w.setopts + 2) (CurlOpt.CURLOPT_WRITEDATA Stream.stdout)),
          Output.close
            (if env.fopen (spec_sdp_filename uri) then Stream.file (spec_sdp_filename uri)
              else Stream.stdout)] := by
  rw [rtsp_describe_run_eq]
  by_cases h : env.fopen (spec_sdp_filename uri) <;>
    simp [h, outputs, printf, fprintf, my_setopt_filterMap, my_perform_filterMap,
      List.filterMap_append, Event.output, Event.setopt_call]

theorem open_streams_describe (env : Env) (uri : CStr) (w : World) :
    (if env.fopen (spec_sdp_filename uri) then Stream.file (spec_sdp_filename uri)
      else Stream.stdout) ∉ (rtsp_describe_run env uri w).open_streams := by
  rw [rtsp_describe_run_eq]
  by_cases h : env.fopen (spec_sdp_filename uri) <;>
    simp [h, fclose, fopen, printf, fprintf]

theorem stream_uri_calls_describe (env : Env) (uri : CStr) (w : World) :
    stream_uri_calls (rtsp_describe_run env uri w).trace = stream_uri_calls w.trace := by
  rw [rtsp_describe_run_eq]
  by_cases h : env.fopen (spec_sdp_filename uri) <;>
    simp [h, stream_uri_calls, printf, fprintf, my_setopt_filterMap, my_perform_filterMap,
      List.filterMap_append, Event.stream_uri]

/-- Claim C2.  The function `rtsp_describe` returns, and makes exactly one `fopen` call,
for the file name of the specification: the substring after the last `/` of
the URI followed by `.sdp` when the URI has a `/` and that substring is not
empty, `video.sdp` otherwise.  So `rtsp://host/media/video1` gives
`video1.sdp` and `rtsp://host/` gives `video.sdp`. -/
theorem rtsp_describe_sdp_filename (env : Env) (uri : CStr) (w : World) :
    (∃ w2, rtsp_describe env uri w = some w2 ∧
      fopen_calls w2.trace = fopen_calls w.trace ++ [spec_sdp_filename uri]) ∧
    (rtsp_describe env "rtsp://host/media/video1".toList w).map (fun w2 => fopen_calls w2.trace)
      = some (fopen_calls w.trace ++ ["video1.sdp".toList]) ∧
    (rtsp_describe env "rtsp://host/".toList w).map (fun w2 => fopen_calls w2.trace)
      = some (fopen_calls w.trace ++ ["video.sdp".toList]) := by
  refine ⟨⟨_, rtsp_describe_eq env uri w, fopen_calls_describe env uri w⟩, ?_, ?_⟩
  · rw [rtsp_describe_eq, Option.map_some', fopen_calls_describe]
    have h : spec_sdp_filename "rtsp://host/media/video1".toList = "video1.sdp".toList := by
      decide
    rw [h]
  · rw [rtsp_describe_eq, Option.map_some', fopen_calls_describe]
    have h : spec_sdp_filename "rtsp://host/".toList = "video.sdp".toList := by decide
    rw [h]

/-- Claim C7, evaluated where it fails.  When `video1.sdp` cannot be opened,
`rtsp_describe` performs the request with standard output as the write target
and leaves it so, but the one stream it closes is standard output (line 90
closes `sdp_fp`, which line 82 set to `stdout`): standard output is not open
when it returns, and it stays closed for the rest of the run of `main`. -/
theorem rtsp_describe_fallback_closes_stdout :
    (∃ w, rtsp_describe env_no_file "rtsp://host/media/video1".toList World.init = some w ∧
      fopen_calls w.trace = ["video1.sdp".toList] ∧
      (performed w.trace).map Handle.writedata = [some Stream.stdout] ∧
      w.handle.writedata = some Stream.stdout ∧
      fclose_calls w.trace = [Stream.stdout] ∧
      Stream.stdout ∉ w.open_streams) ∧
    (∃ w, main env_no_file ["rtsprequest".toList, "rtsp://host/media/video1".toList]
        = some (EXIT_SUCCESS, w) ∧
      fclose_calls w.trace = [Stream.stdout] ∧
      Stream.stdout ∉ w.open_streams) := by
  refine ⟨⟨_, rfl, ?_⟩, ⟨_, rfl, ?_⟩⟩
  · decide
  · decide

/-- Claim C8.  When the SDP file is opened, whatever the result codes of the
option-setting and perform calls, `rtsp_describe` returns and has closed the
file, and no other stream, exactly once: after the perform call and after the
call that resets the write target to standard output.  That call stores a
pointer, which libcurl does for every valid handle; when it succeeds, the
write target of the handle is standard output on return. -/
theorem rtsp_describe_closes_sdp_file (env : Env) (uri : CStr) (w : World)
    (hopen : env.fopen (spec_sdp_filename uri) = true) :
    ∃ w2, rtsp_describe env uri w = some w2 ∧
      fclose_calls w2.trace = fclose_calls w.trace ++ [Stream.file (spec_sdp_filename uri)] ∧
      outputs w2.trace
        = outputs w.trace ++
          [Output.target (Stream.file (spec_sdp_filename uri))
              (env.setopt w.setopts
                (CurlOpt.CURLOPT_WRITEDATA (Stream.file (spec_sdp_filename uri)))),
           Output.perform,
           Output.target Stream.stdout
              (env.setopt (w.setopts + 2) (CurlOpt.CURLOPT_WRITEDATA Stream.stdout)),
           Output.close (Stream.file (spec_sdp_filename uri))] ∧
      (env.setopt (w.setopts + 2) (CurlOpt.CURLOPT_WRITEDATA Stream.stdout) = CURLE_OK →
        w2.handle.writedata = some Stream.stdout) ∧
      Stream.file (spec_sdp_filename uri) ∉ w2.open_streams := by
  refine ⟨_, rtsp_describe_eq env uri w, ?_, ?_, ?_, ?_⟩
  · simp [fclose_calls_describe, hopen]
  · simp [outputs_describe, hopen]
  · intro hreset
    simp [rtsp_describe_handle, effect_writedata, hreset]
  · simpa [hopen] using open_streams_describe env uri w

/-- Claim C9 fails as stated.  For the base URL `rtsp://host`, which has no path
segment, `rtsp_describe` opens `host.sdp`, not `video.sdp`. -/
theorem rtsp_describe_no_path_segment_is_host :
    (rtsp_describe env_ok "rtsp://host".toList World.init).map (fun w => fopen_calls w.trace)
      = some ["host.sdp".toList] ∧
    "host.sdp".toList ≠ "video.sdp".toList := by
  decide

/-- Claim C9, amended.  For a base URL `scheme://authority` with no `/` after the
authority, `rtsp_describe` opens `authority.sdp`; it opens `video.sdp` only
when the authority is empty. -/
theorem rtsp_describe_authority_filename (env : Env) (scheme authority : CStr) (w : World)
    (hauth : '/' ∉ authority) :
    ∃ w2, rtsp_describe env (scheme ++ "://".toList ++ authority) w = some w2 ∧
      fopen_calls w2.trace
        = fopen_calls w.trace ++
          [if authority = [] then "video.sdp".toList else authority ++ ".sdp".toList] := by
  refine ⟨_, rtsp_describe_eq env _ w, ?_⟩
  rw [fopen_calls_describe]
  have hsplit : scheme ++ "://".toList ++ authority = (scheme ++ ":/".toList) ++ '/' :: authority := by
    simp
  have ha := after_last_slash_append (scheme ++ ":/".toList) authority hauth
  rw [← hsplit] at ha
  unfold spec_sdp_filename
  rw [ha]
  by_cases he : authority = [] <;> simp [he]

/-- Claim C10.  The functions `rtsp_describe` and `rtsp_teardown` pass no stream URI to
the handle and leave the one it has: the request is performed with the stream
URI the handle had on entry, whatever their `uri` argument.  The functions
`rtsp_options`, `rtsp_setup` and `rtsp_play` pass their `uri` argument as the
stream URI before they perform, and it is the stream URI of the request when
that call succeeds; when it fails the request has no stream URI. -/
theorem stream_uri_unchanged_by_describe_and_teardown (env : Env) (uri : CStr) (w : World)
    (transport range : CStr) :
    (∃ w2, rtsp_describe env uri w = some w2 ∧
      stream_uri_calls w2.trace = stream_uri_calls w.trace ∧
      w2.handle.rtsp_stream_uri = w.handle.rtsp_stream_uri ∧
      (performed w2.trace).map Handle.rtsp_stream_uri
        = (performed w.trace).map Handle.rtsp_stream_uri ++ [w.handle.rtsp_stream_uri]) ∧
    (stream_uri_calls (rtsp_teardown env uri w).trace = stream_uri_calls w.trace ∧
      (rtsp_teardown env uri w).handle.rtsp_stream_uri = w.handle.rtsp_stream_uri ∧
      (performed (rtsp_teardown env uri w).trace).map Handle.rtsp_stream_uri
        = (performed w.trace).map Handle.rtsp_stream_uri ++ [w.handle.rtsp_stream_uri]) ∧
    (stream_uri_calls (rtsp_options env uri w).trace = stream_uri_calls w.trace ++ [uri] ∧
      (performed (rtsp_options env uri w).trace).map Handle.rtsp_stream_uri
        = (performed w.trace).map Handle.rtsp_stream_uri ++
          [if env.setopt w.setopts (CurlOpt.CURLOPT_RTSP_STREAM_URI uri) = CURLE_OK
            then some uri else none]) ∧
    (stream_uri_calls (rtsp_setup env uri transport w).trace
        = stream_uri_calls w.trace ++ [uri] ∧
      (performed (rtsp_setup env uri transport w).trace).map Handle.rtsp_stream_uri
        = (performed w.trace).map Handle.rtsp_stream_uri ++
          [if env.setopt w.setopts (CurlOpt.CURLOPT_RTSP_STREAM_URI uri) = CURLE_OK
            then some uri else none]) ∧
    (stream_uri_calls (rtsp_play env uri range w).trace = stream_uri_calls w.trace ++ [uri] ∧
      (performed (rtsp_play env uri range w).trace).map Handle.rtsp_stream_uri
        = (performed w.trace).map Handle.rtsp_stream_uri ++
          [if env.setopt w.setopts (CurlOpt.CURLOPT_RTSP_STREAM_URI uri) = CURLE_OK
            then some uri else none]) := by
  refine ⟨⟨_, rtsp_describe_eq env uri w, stream_uri_calls_describe env uri w, ?_, ?_⟩,
    ⟨?_, ?_, ?_⟩, ⟨?_, ?_⟩, ⟨?_, ?_⟩, ⟨?_, ?_⟩⟩
  · simp [rtsp_describe_handle, effect_rtsp_stream_uri]
  · simp [performed_describe, effect_rtsp_stream_uri]
  · simp [stream_uri_calls, rtsp_teardown, printf, my_setopt_filterMap, my_perform_filterMap,
      List.filterMap_append, Event.stream_uri]
  · simp [effect_rtsp_stream_uri]
  · simp [performed_teardown, effect_rtsp_stream_uri]
  · simp [stream_uri_calls, rtsp_options, printf, my_setopt_filterMap, my_perform_filterMap,
      List.filterMap_append, Event.stream_uri]
  · simp [performed_options, effect_rtsp_stream_uri]
  · simp [stream_uri_calls, rtsp_setup, printf, my_setopt_filterMap, my_perform_filterMap,
      List.filterMap_append, Event.stream_uri]
  · simp [performed_setup, effect_rtsp_stream_uri]
  · simp [stream_uri_calls, rtsp_play, printf, my_setopt_filterMap, my_perform_filterMap,
      List.filterMap_append, Event.stream_uri]
  · simp [performed_play, effect_rtsp_stream_uri]


/-! ## Witnesses -/

/-- Witness for C1: the run `rtsprequest rtsp://host/media/video1` in which every call
succeeds. -/
theorem main_stream_uri_per_request_witness :
    (["rtsprequest".toList, "rtsp://host/media/video1".toList].length = 2 ∨
      ["rtsprequest".toList, "rtsp://host/media/video1".toList].length = 3) ∧
    (∀ n o, env_ok.setopt n o = CURLE_OK) ∧
    ∃ w, main env_ok ["rtsprequest".toList, "rtsp://host/media/video1".toList]
        = some (EXIT_SUCCESS, w) ∧
      (performed w.trace).map Handle.target
        = [(some RtspReq.OPTIONS, some "rtsp://host/media/video1".toList),
           (some RtspReq.DESCRIBE, some "rtsp://host/media/video1".toList),
           (some RtspReq.SETUP, some ("rtsp://host/media/video1".toList ++ "/video".toList)),
           (some RtspReq.PLAY, some ("rtsp://host/media/video1".toList ++ "/".toList)),
           (some RtspReq.TEARDOWN, some ("rtsp://host/media/video1".toList ++ "/".toList))] :=
  ⟨by decide, fun _ _ => rfl,
    main_stream_uri_per_request env_ok
      ["rtsprequest".toList, "rtsp://host/media/video1".toList]
      "rtsp://host/media/video1".toList (by decide) rfl rfl rfl (fun _ _ => rfl)⟩

/-- Witness for C3: the run `rtsprequest` without arguments. -/
theorem main_usage_error_witness :
    ["bin/rtsprequest".toList] ≠ [] ∧ ["bin/rtsprequest".toList].length ≠ 2 ∧
    ["bin/rtsprequest".toList].length ≠ 3 ∧
    ∃ w basename,
      main env_ok ["bin/rtsprequest".toList] = some (EXIT_FAILURE, w) ∧ EXIT_FAILURE ≠ 0 ∧
      w.trace =
        [Event.printf "\nRTSP request %s\n" [Arg.str "V1.0".toList],
         Event.printf "    Project web site: http://code.google.com/p/rtsprequest/\n" [],
         Event.printf "    Requires cURL V7.20 or greater\n\n" [],
         Event.printf "Usage:   %s url [transport]\n" [Arg.str basename],
         Event.printf "         url of video server\n" [],
         Event.printf "         transport (optional) specifier for media stream protocol\n" [],
         Event.printf "         default transport: %s\n"
           [Arg.str "RTP/AVP;unicast;client_port=1234-1235".toList],
         Event.printf "Example: %s rtsp://192.168.0.2/media/video1\n\n" [Arg.str basename]] ∧
      (∀ e ∈ w.trace, e.is_curl = false) :=
  ⟨by decide, by decide, by decide,
    main_usage_error env_ok ["bin/rtsprequest".toList] (by decide) (by decide) (by decide)⟩

/-- Witness for C4: a run with two arguments in which no file can be opened. -/
theorem main_request_sequence_witness :
    (["rtsprequest".toList, "rtsp://host/media".toList, "RTP/AVP/TCP".toList].length = 2 ∨
      ["rtsprequest".toList, "rtsp://host/media".toList, "RTP/AVP/TCP".toList].length = 3) ∧
    ∃ w, main env_no_file ["rtsprequest".toList, "rtsp://host/media".toList,
        "RTP/AVP/TCP".toList] = some (EXIT_SUCCESS, w) ∧
      steps w.trace
        = [Step.select RtspReq.OPTIONS, Step.perform,
           Step.select RtspReq.DESCRIBE, Step.perform,
           Step.select RtspReq.SETUP, Step.perform,
           Step.select RtspReq.PLAY, Step.perform,
           Step.keypress,
           Step.select RtspReq.TEARDOWN, Step.perform] :=
  ⟨by decide,
    main_request_sequence env_no_file
      ["rtsprequest".toList, "rtsp://host/media".toList, "RTP/AVP/TCP".toList]
      (by decide) rfl rfl⟩

/-- Witness for C5: the run `rtsprequest a b c`, with three arguments. -/
theorem main_exit_status_witness :
    ["rtsprequest".toList, "a".toList, "b".toList, "c".toList] ≠ [] ∧
    ∃ rc w, main env_ok ["rtsprequest".toList, "a".toList, "b".toList, "c".toList]
        = some (rc, w) ∧
      (rc ≠ 0 ↔
        (["rtsprequest".toList, "a".toList, "b".toList, "c".toList].length ≠ 2 ∧
          ["rtsprequest".toList, "a".toList, "b".toList, "c".toList].length ≠ 3)) :=
  ⟨by decide,
    main_exit_status env_ok ["rtsprequest".toList, "a".toList, "b".toList, "c".toList]
      (by decide)⟩

/-- Witness for C6: a run with the transport `RTP/AVP/TCP;interleaved=0-1`. -/
theorem main_setup_transport_witness :
    ∃ w, main env_ok ["rtsprequest".toList, "rtsp://host/media".toList,
        "RTP/AVP/TCP;interleaved=0-1".toList] = some (EXIT_SUCCESS, w) ∧
      transport_calls w.trace = ["RTP/AVP/TCP;interleaved=0-1".toList] ∧
      ((performed w.trace).map Handle.rtsp_transport)[2]?
        = some (some "RTP/AVP/TCP;interleaved=0-1".toList) :=
  main_setup_transport env_ok
    ["rtsprequest".toList, "rtsp://host/media".toList, "RTP/AVP/TCP;interleaved=0-1".toList]
    (by decide) rfl rfl

/-- Witness for C8: the SDP file of `rtsp://host/media/video1` can be opened and the
resetting call succeeds. -/
theorem rtsp_describe_closes_sdp_file_witness :
    env_ok.fopen (spec_sdp_filename "rtsp://host/media/video1".toList) = true ∧
    env_ok.setopt (World.init.setopts + 2) (CurlOpt.CURLOPT_WRITEDATA Stream.stdout)
      = CURLE_OK ∧
    ∃ w2, rtsp_describe env_ok "rtsp://host/media/video1".toList World.init = some w2 ∧
      fclose_calls w2.trace = [Stream.file "video1.sdp".toList] ∧
      w2.handle.writedata = some Stream.stdout ∧
      Stream.file "video1.sdp".toList ∉ w2.open_streams := by
  refine ⟨rfl, rfl, ?_⟩
  obtain ⟨w2, h1, h2, _, h4, h5⟩ :=
    rtsp_describe_closes_sdp_file env_ok "rtsp://host/media/video1".toList World.init rfl
  have hn : spec_sdp_filename "rtsp://host/media/video1".toList = "video1.sdp".toList := by
    decide
  rw [hn] at h2 h5
  exact ⟨w2, h1, h2, h4 rfl, h5⟩

/-- Witness for C9: the base URL `rtsp://192.168.0.2`. -/
theorem rtsp_describe_authority_filename_witness :
    '/' ∉ "192.168.0.2".toList ∧
    ∃ w2, rtsp_describe env_ok ("rtsp".toList ++ "://".toList ++ "192.168.0.2".toList)
        World.init = some w2 ∧
      fopen_calls w2.trace = ["192.168.0.2.sdp".toList] :=
  ⟨by decide,
    rtsp_describe_authority_filename env_ok "rtsp".toList "192.168.0.2".toList World.init
      (by decide)⟩

end RtspRequest
